import Mathlib

/-!
Verification of the order-tracking core of the E-Cater front-end.

The embedded code is the `OrderTracking` page: its zod form schema
(`trackingFormSchema`), the static fixture table (`mockOrderStatuses`),
the submit handler (`onSubmit`) and the status-to-progress mapping
(`getProgressPercentage`).  Machine-irrelevant display code (JSX markup,
date formatting) is not embedded; every embedded definition mirrors the
corresponding TypeScript value or function.
-/

namespace ECater

/-- A geographic location: `currentLocation` field of an order record
(`lat`/`lng` are decimal literals in the source, embedded as rationals). -/
structure GeoLocation where
  lat : ℚ
  lng : ℚ
  address : String
deriving DecidableEq

/-- One entry of `trackingHistory`: a (status, timestamp, location) event. -/
structure TrackingEvent where
  status : String
  timestamp : String
  location : String
deriving DecidableEq

/-- An order record, the value type of the `mockOrderStatuses` table. -/
structure OrderRecord where
  status : String
  customer : String
  email : String
  orderDate : String
  items : List String
  currentLocation : GeoLocation
  estimatedDelivery : String
  trackingHistory : List TrackingEvent
deriving DecidableEq

/-- The record stored under key "ORD123456" in `mockOrderStatuses`. -/
def ord123456 : OrderRecord :=
  { status := "in-transit"
    customer := "Rahul Sharma"
    email := "test@example.com"
    orderDate := "2023-11-15T10:30:00"
    items := ["Paneer Tikka (15 pcs)", "Butter Chicken (2kg)",
              "Vegetable Biryani (30 servings)"]
    currentLocation :=
      { lat := 12.9716
        lng := 77.5946
        address := "Bannerghatta Road, Near JP Nagar" }
    estimatedDelivery := "2023-11-15T14:30:00"
    trackingHistory :=
      [ { status := "order-placed", timestamp := "2023-11-15T10:30:00",
          location := "Vendor Facility" },
        { status := "preparing", timestamp := "2023-11-15T11:15:00",
          location := "Vendor Kitchen" },
        { status := "in-transit", timestamp := "2023-11-15T13:00:00",
          location := "En Route to Destination" } ] }

/-- The record stored under key "ORD789012" in `mockOrderStatuses`. -/
def ord789012 : OrderRecord :=
  { status := "delivered"
    customer := "Ananya Patel"
    email := "test@example.com"
    orderDate := "2023-11-14T09:45:00"
    items := ["Veg Starter Combo (25 persons)", "Main Course Buffet (25 persons)"]
    currentLocation :=
      { lat := 12.9352
        lng := 77.6245
        address := "Koramangala, 5th Block" }
    estimatedDelivery := "2023-11-14T12:45:00"
    trackingHistory :=
      [ { status := "order-placed", timestamp := "2023-11-14T09:45:00",
          location := "Vendor Facility" },
        { status := "preparing", timestamp := "2023-11-14T10:15:00",
          location := "Vendor Kitchen" },
        { status := "in-transit", timestamp := "2023-11-14T11:30:00",
          location := "En Route to Destination" },
        { status := "delivered", timestamp := "2023-11-14T12:40:00",
          location := "Destination" } ] }

/-- The static fixture table `mockOrderStatuses`, a key-to-record map embedded
as an association list in source order. -/
def mockOrderStatuses : List (String × OrderRecord) :=
  [("ORD123456", ord123456), ("ORD789012", ord789012)]

/-- Key lookup `mockOrderStatuses[orderId]` of the submit handler. -/
def findOrder (orderId : String) : Option OrderRecord :=
  (mockOrderStatuses.find? fun p => p.1 == orderId).map Prod.snd

/-- The toast raised on a successful lookup ("Order Found", default variant). -/
def foundToast : Bool × String := (false, "Order Found")

/-- The toast raised on a failed lookup ("Order Not Found", destructive
variant). -/
def notFoundToast : Bool × String := (true, "Order Not Found")

/-- The outcome of one form submission: the value passed to
`setTrackingResult` and the toast raised. -/
structure SubmitResult where
  trackingResult : Option OrderRecord
  toast : Bool × String
deriving DecidableEq

/-- The submit handler `onSubmit`: looks up `orderId` in the table and,
if a record exists and its `email` field strictly equals the submitted
email, stores that record and raises the found toast; otherwise raises the
not-found toast and stores `null`. -/
def onSubmit (orderId email : String) : SubmitResult :=
  match findOrder orderId with
  | some orderData =>
      if orderData.email = email then
        { trackingResult := some orderData, toast := foundToast }
      else
        { trackingResult := none, toast := notFoundToast }
  | none => { trackingResult := none, toast := notFoundToast }

set_option linter.unusedVariables false in
/-- View state after a submission: both branches of `onSubmit` call
`setTrackingResult`, so the new `trackingResult` state never depends on the
previous one. -/
def trackingResultAfterSubmit (prev : Option OrderRecord)
    (orderId email : String) : Option OrderRecord :=
  (onSubmit orderId email).trackingResult

/-- The status-to-progress mapping `getProgressPercentage`: a switch over
the four lifecycle statuses with default 0. -/
def getProgressPercentage (status : String) : Nat :=
  if status = "order-placed" then 25
  else if status = "preparing" then 50
  else if status = "in-transit" then 75
  else if status = "delivered" then 100
  else 0

/-- The lifecycle statuses in order, as named in the source. -/
def lifecycleStatuses : List String :=
  ["order-placed", "preparing", "in-transit", "delivered"]

/-- Modelled from the spec: the form-validation gate.  The zod schema
`trackingFormSchema` (in the source) requires an `orderId` of length at
least 3 and a syntactically valid email; the enforcement — react-hook-form's
submit wrapper together with `zodResolver`, which run the submit handler
only on inputs the schema accepts — is library code not in this repository.
The email-syntax predicate is abstracted as the parameter `emailOk`. -/
def trackingFormAccepts (emailOk : String → Bool)
    (orderId email : String) : Bool :=
  decide (3 ≤ orderId.length) && emailOk email

/-- Modelled from the spec: the guarded submission pipeline.  The submit
handler runs (and the view state changes) only when the form validates;
otherwise the stored tracking result is left unchanged. -/
def submitPipeline (emailOk : String → Bool) (prev : Option OrderRecord)
    (orderId email : String) : Option OrderRecord :=
  if trackingFormAccepts emailOk orderId email then
    trackingResultAfterSubmit prev orderId email
  else prev

/-- Closed form of `findOrder`: the table has exactly two keys. -/
lemma findOrder_eq (id : String) :
    findOrder id = if id = "ORD123456" then some ord123456
      else if id = "ORD789012" then some ord789012 else none := by
  unfold findOrder mockOrderStatuses
  by_cases h1 : id = "ORD123456"
  · subst h1; rfl
  · by_cases h2 : id = "ORD789012"
    · subst h2; rfl
    · have b1 : ("ORD123456" == id) = false :=
        beq_eq_false_iff_ne.mpr fun h => h1 h.symm
      have b2 : ("ORD789012" == id) = false :=
        beq_eq_false_iff_ne.mpr fun h => h2 h.symm
      simp [List.find?, b1, b2, h1, h2]

/-- Membership in the fixture table, unfolded. -/
lemma mem_mock_iff (id : String) (o : OrderRecord) :
    (id, o) ∈ mockOrderStatuses ↔
      (id = "ORD123456" ∧ o = ord123456) ∨
      (id = "ORD789012" ∧ o = ord789012) := by
  simp [mockOrderStatuses, Prod.ext_iff]

/-- Lookup succeeds exactly on the table's keys. -/
lemma findOrder_some_iff (id : String) (o : OrderRecord) :
    findOrder id = some o ↔ (id, o) ∈ mockOrderStatuses := by
  rw [findOrder_eq, mem_mock_iff]
  split_ifs with h1 h2
  · subst h1
    constructor
    · intro h; exact Or.inl ⟨rfl, (Option.some.injEq ..).mp h.symm⟩
    · rintro (⟨-, rfl⟩ | ⟨h, -⟩)
      · rfl
      · exact absurd h (by decide)
  · subst h2
    constructor
    · intro h; exact Or.inr ⟨rfl, (Option.some.injEq ..).mp h.symm⟩
    · rintro (⟨h, -⟩ | ⟨-, rfl⟩)
      · exact absurd h (by decide)
      · rfl
  · constructor
    · intro h; cases h
    · rintro (⟨h, -⟩ | ⟨h, -⟩)
      · exact absurd h h1
      · exact absurd h h2

/-- The submit handler stores a record exactly when the lookup finds it and
its email field equals the submitted email. -/
lemma onSubmit_some_iff (orderId email : String) (o : OrderRecord) :
    (onSubmit orderId email).trackingResult = some o ↔
      findOrder orderId = some o ∧ o.email = email := by
  unfold onSubmit
  split
  next od hf =>
    rw [hf]
    split_ifs with h
    · simp only [Option.some.injEq]
      constructor
      · rintro rfl; exact ⟨rfl, h⟩
      · rintro ⟨rfl, -⟩; rfl
    · constructor
      · intro h1; exact absurd h1 (by simp)
      · rintro ⟨h1, h2⟩
        injection h1 with h1
        subst h1
        exact absurd h2 h
  next hf =>
    rw [hf]
    simp

/-- C1: `getProgressPercentage` is a pure total function mapping the four
lifecycle statuses to 25, 50, 75, 100 in lifecycle order and every other
string to 0. -/
theorem getProgressPercentage_spec (s : String) :
    getProgressPercentage "order-placed" = 25 ∧
    getProgressPercentage "preparing" = 50 ∧
    getProgressPercentage "in-transit" = 75 ∧
    getProgressPercentage "delivered" = 100 ∧
    (s ∉ lifecycleStatuses → getProgressPercentage s = 0) := by
  refine ⟨rfl, rfl, rfl, rfl, fun h => ?_⟩
  simp only [lifecycleStatuses, List.mem_cons, List.not_mem_nil, or_false,
    not_or] at h
  obtain ⟨h1, h2, h3, h4⟩ := h
  simp [getProgressPercentage, h1, h2, h3, h4]

/-- Witness for C1: the unknown status "cancelled" maps to 0. -/
theorem getProgressPercentage_spec_witness :
    "cancelled" ∉ lifecycleStatuses ∧ getProgressPercentage "cancelled" = 0 :=
  ⟨by decide, (getProgressPercentage_spec "cancelled").2.2.2.2 (by decide)⟩

/-- C3 counterexample: the claim says the placement status is named
"placed" and that the mapping sends "placed" to 25; in the code the mapping
sends "placed" to its default 0, and the placement status written in both
fixture histories is "order-placed", not "placed". -/
theorem placed_status_counterexample :
    getProgressPercentage "placed" = 0 ∧
    ¬ getProgressPercentage "placed" = 25 ∧
    (ord123456.trackingHistory.head?).map TrackingEvent.status =
      some "order-placed" := by
  refine ⟨rfl, by decide, rfl⟩

/-- C3 (amended): the status assigned at order placement is named
"order-placed" — it opens every fixture history — and the mapping yields
25 on "order-placed". -/
theorem placement_status_progress :
    (∀ p ∈ mockOrderStatuses,
      (p.2.trackingHistory.head?).map TrackingEvent.status =
        some "order-placed") ∧
    getProgressPercentage "order-placed" = 25 := by
  refine ⟨fun p hp => ?_, rfl⟩
  simp only [mockOrderStatuses, List.mem_cons, List.not_mem_nil,
    or_false] at hp
  rcases hp with rfl | rfl <;> rfl

/-- Witness for C3's amended theorem at the first fixture record. -/
theorem placement_status_progress_witness :
    (ord123456.trackingHistory.head?).map TrackingEvent.status =
      some "order-placed" :=
  placement_status_progress.1 ("ORD123456", ord123456)
    (by simp [mockOrderStatuses])

/-- C4: in every record of the fixture table, the status of the last
tracking-history entry equals the record's current status. -/
theorem history_last_matches_status (p : String × OrderRecord)
    (hp : p ∈ mockOrderStatuses) :
    (p.2.trackingHistory.getLast?).map TrackingEvent.status =
      some p.2.status := by
  simp only [mockOrderStatuses, List.mem_cons, List.not_mem_nil,
    or_false] at hp
  rcases hp with rfl | rfl <;> rfl

/-- Witness for C4 at the second fixture record. -/
theorem history_last_matches_status_witness :
    (ord789012.trackingHistory.getLast?).map TrackingEvent.status =
      some ord789012.status :=
  history_last_matches_status ("ORD789012", ord789012)
    (by simp [mockOrderStatuses])

/-- C5: in every record of the fixture table, the status sequence of the
tracking history is an initial segment of the lifecycle order — so it is
monotonically non-decreasing, strictly linear, with no skips, reversals or
branches. -/
theorem history_linear (p : String × OrderRecord)
    (hp : p ∈ mockOrderStatuses) :
    (p.2.trackingHistory.map TrackingEvent.status).isPrefixOf
      lifecycleStatuses = true := by
  simp only [mockOrderStatuses, List.mem_cons, List.not_mem_nil,
    or_false] at hp
  rcases hp with rfl | rfl <;> rfl

/-- Witness for C5 at the first fixture record. -/
theorem history_linear_witness :
    (ord123456.trackingHistory.map TrackingEvent.status).isPrefixOf
      lifecycleStatuses = true :=
  history_linear ("ORD123456", ord123456) (by simp [mockOrderStatuses])

/-- C6: the two worked examples — ORD123456 with test@example.com resolves
to the in-transit record at progress 75, and ORD789012 with the same email
resolves to the delivered record at progress 100. -/
theorem lookup_examples :
    (onSubmit "ORD123456" "test@example.com").trackingResult =
      some ord123456 ∧
    ord123456.status = "in-transit" ∧
    getProgressPercentage ord123456.status = 75 ∧
    (onSubmit "ORD789012" "test@example.com").trackingResult =
      some ord789012 ∧
    ord789012.status = "delivered" ∧
    getProgressPercentage ord789012.status = 100 :=
  ⟨rfl, rfl, rfl, rfl, rfl, rfl⟩

/-- C2: the lookup returns a record exactly when the table holds a record
keyed by exactly the submitted id whose email field equals the submitted
email (case-sensitive); in every other case it signals not-found via the
destructive toast. -/
theorem onSubmit_found_iff (orderId email : String) (o : OrderRecord) :
    ((onSubmit orderId email).trackingResult = some o ↔
      (orderId, o) ∈ mockOrderStatuses ∧ o.email = email) ∧
    ((onSubmit orderId email).trackingResult = none ↔
      (onSubmit orderId email).toast = notFoundToast) := by
  refine ⟨?_, ?_⟩
  · rw [onSubmit_some_iff, findOrder_some_iff]
  · unfold onSubmit
    split
    next od hf =>
      split_ifs with h
      · simp [foundToast, notFoundToast]
      · simp
    next hf => simp

/-- C7: id "ORD000000" fails the lookup for every email, raising the single
not-found error; and every submission raises either the found toast or the
not-found toast — the lookup has no other outcome. -/
theorem lookup_ord000000 :
    (∀ email, (onSubmit "ORD000000" email).trackingResult = none ∧
      (onSubmit "ORD000000" email).toast = notFoundToast) ∧
    (∀ orderId email, (onSubmit orderId email).toast = foundToast ∨
      (onSubmit orderId email).toast = notFoundToast) := by
  refine ⟨fun email => ⟨rfl, rfl⟩, fun orderId email => ?_⟩
  unfold onSubmit
  split
  next od hf =>
    split_ifs with h
    · exact Or.inl rfl
    · exact Or.inr rfl
  next hf => exact Or.inr rfl

/-- C8: whenever the submitted (id, email) pair matches no record of the
table, the stored tracking result is set to null, whatever was displayed
before. -/
theorem failed_lookup_clears (prev : Option OrderRecord)
    (orderId email : String)
    (h : ∀ p ∈ mockOrderStatuses, ¬(p.1 = orderId ∧ p.2.email = email)) :
    trackingResultAfterSubmit prev orderId email = none := by
  rcases hr : (onSubmit orderId email).trackingResult with _ | o
  · exact hr
  · exfalso
    obtain ⟨hf, he⟩ := (onSubmit_some_iff orderId email o).mp hr
    exact h (orderId, o) ((findOrder_some_iff orderId o).mp hf) ⟨rfl, he⟩

/-- Witness for C8: the unknown id "ORD000000" clears a previously
displayed record. -/
theorem failed_lookup_clears_witness :
    trackingResultAfterSubmit (some ord123456) "ORD000000"
      "nobody@example.com" = none :=
  failed_lookup_clears (some ord123456) "ORD000000" "nobody@example.com"
    (by decide)

/-- C9: the submission pipeline leaves the stored result unchanged on any
input the form schema rejects (id shorter than 3 characters, or an email
the syntactic check refuses), and runs the lookup exactly on accepted
inputs. -/
theorem validation_gates_lookup (emailOk : String → Bool)
    (prev : Option OrderRecord) (orderId email : String) :
    (¬(3 ≤ orderId.length ∧ emailOk email = true) →
      submitPipeline emailOk prev orderId email = prev) ∧
    (3 ≤ orderId.length → emailOk email = true →
      submitPipeline emailOk prev orderId email =
        trackingResultAfterSubmit prev orderId email) := by
  constructor
  · intro h
    unfold submitPipeline
    rw [if_neg]
    simp only [trackingFormAccepts, Bool.and_eq_true, decide_eq_true_eq]
    exact fun hc => h hc
  · intro h1 h2
    unfold submitPipeline
    rw [if_pos]
    simp only [trackingFormAccepts, Bool.and_eq_true, decide_eq_true_eq]
    exact ⟨h1, h2⟩

/-- Witness for C9: a 2-character id is rejected and the previous result
survives, even under a permissive email check. -/
theorem validation_gates_lookup_witness :
    submitPipeline (fun _ => true) (some ord123456) "AB" "a@b.com" =
      some ord123456 :=
  (validation_gates_lookup (fun _ => true) (some ord123456) "AB"
    "a@b.com").1 (by decide)

/-- C10: every fixture record whose current status is "delivered" has a
tracking-history entry with status "delivered", so the find over the
history used to render the delivered timestamp always succeeds. -/
theorem delivered_history_present (p : String × OrderRecord)
    (hp : p ∈ mockOrderStatuses) (hd : p.2.status = "delivered") :
    (p.2.trackingHistory.find? fun ev => ev.status == "delivered").isSome =
      true := by
  simp only [mockOrderStatuses, List.mem_cons, List.not_mem_nil,
    or_false] at hp
  rcases hp with rfl | rfl
  · exact absurd hd (by decide)
  · rfl

/-- Witness for C10 at the delivered fixture record. -/
theorem delivered_history_present_witness :
    (ord789012.trackingHistory.find? fun ev =>
      ev.status == "delivered").isSome = true :=
  delivered_history_present ("ORD789012", ord789012)
    (by simp [mockOrderStatuses]) rfl

end ECater
